import Mathlib

/-!
Shallow embedding of `examples/hyperband/hyperband_mlp_example.py` (SMAC3).

The script defines one objective function, `mlp_from_cfg`, and a `__main__`
driver that builds a configuration space, a scenario option mapping, and an
`HB4AC` optimizer facade, then evaluates the default configuration, runs the
optimization inside a try/finally block, and evaluates the incumbent.

External library behaviour (sklearn's `cross_val_score`, SMAC's optimizer)
is abstracted as oracle function parameters; everything the script itself
does — argument construction, the arithmetic on the returned scores, the
warning filter, the try/finally rebinding, and the sequence of driver
statements — is embedded faithfully, statement by statement.
-/

namespace HyperbandMLP

/-- Scalar-or-object values appearing in the script's option dictionaries
and hyperparameter defaults: Python ints, floats (as rationals), strings,
booleans, and the one non-scalar object (the configuration space `cs`). -/
inductive Value where
  | int (n : ℤ)
  | rat (q : ℚ)
  | str (s : String)
  | bool (b : Bool)
  | configSpace
deriving DecidableEq, Repr

/-- A value is a scalar unless it is the configuration-space object. -/
def Value.isScalar : Value → Bool
  | .configSpace => false
  | _ => true

/-- Hyperparameter domains available to the script: the three constructors
it imports from ConfigSpace (`UniformIntegerHyperparameter`,
`UniformFloatHyperparameter`, `CategoricalHyperparameter`). -/
inductive Domain where
  | uniformInt (lower upper : ℤ) (log : Bool)
  | uniformFloat (lower upper : ℚ) (log : Bool)
  | categorical (choices : List String)
deriving DecidableEq, Repr

/-- A named hyperparameter as constructed in the script: a name, a domain,
and an optional `default_value` argument. -/
structure Hyperparameter where
  name : String
  domain : Domain
  default_value : Option Value
deriving DecidableEq, Repr

/-- `n_layer = UniformIntegerHyperparameter("n_layer", 1, 5, default_value=1)` -/
def n_layer : Hyperparameter :=
  ⟨"n_layer", .uniformInt 1 5 false, some (.int 1)⟩

/-- `n_neurons = UniformIntegerHyperparameter("n_neurons", 8, 1024, log=True, default_value=10)` -/
def n_neurons : Hyperparameter :=
  ⟨"n_neurons", .uniformInt 8 1024 true, some (.int 10)⟩

/-- `activation = CategoricalHyperparameter("activation", ['logistic', 'tanh', 'relu'], default_value='tanh')` -/
def activation : Hyperparameter :=
  ⟨"activation", .categorical ["logistic", "tanh", "relu"], some (.str "tanh")⟩

/-- `batch_size = UniformIntegerHyperparameter('batch_size', 30, 300, default_value=200)` -/
def batch_size : Hyperparameter :=
  ⟨"batch_size", .uniformInt 30 300 false, some (.int 200)⟩

/-- `learning_rate_init = UniformFloatHyperparameter('learning_rate_init', 0.0001, 1.0, default_value=0.001, log=True)` -/
def learning_rate_init : Hyperparameter :=
  ⟨"learning_rate_init", .uniformFloat (1/10000) 1 true, some (.rat (1/1000))⟩

/-- The list passed to `cs.add_hyperparameters([...])`, in source order. -/
def addedHyperparameters : List Hyperparameter :=
  [n_layer, n_neurons, activation, batch_size, learning_rate_init]

/-- The dictionary literal passed to the `Scenario` constructor, in source
order: `{"run_obj": "quality", "wallclock-limit": 100, "cs": cs,
"deterministic": "true", "limit_resources": True, "cutoff": 30,
"memory_limit": 3072}`. -/
def scenarioOptions : List (String × Value) :=
  [("run_obj", .str "quality"),
   ("wallclock-limit", .int 100),
   ("cs", .configSpace),
   ("deterministic", .str "true"),
   ("limit_resources", .bool true),
   ("cutoff", .int 30),
   ("memory_limit", .int 3072)]

/-! ### The objective function `mlp_from_cfg` -/

/-- The configuration values `mlp_from_cfg` reads out of `cfg`:
`cfg["n_neurons"]`, `cfg["n_layer"]`, `cfg['batch_size']`,
`cfg['activation']`, `cfg['learning_rate_init']`. -/
structure Cfg where
  n_neurons : ℤ
  n_layer : ℤ
  batch_size : ℤ
  activation : String
  learning_rate_init : ℚ
deriving DecidableEq, Repr

/-- `numpy.ceil` on an exact real (rational) input: the ceiling, returned
as a float, i.e. still a rational here. -/
def npCeil (x : ℚ) : ℚ := (⌈x⌉ : ℚ)

/-- Python's `int(...)` on a float: truncation toward zero. -/
def pyInt (x : ℚ) : ℤ := if 0 ≤ x then ⌊x⌋ else ⌈x⌉

/-- The keyword arguments the script passes to the `MLPClassifier`
constructor.  `random_state` is `Option` because sklearn lets it default
to the global random generator when it is not passed; the script always
passes `seed`. -/
structure MLPArgs where
  hidden_layer_sizes : List ℤ
  batch_size : ℤ
  activation : String
  learning_rate_init : ℚ
  max_iter : ℤ
  random_state : Option ℤ
deriving DecidableEq, Repr

/-- The keyword arguments the script passes to `StratifiedKFold`. -/
structure KFoldArgs where
  n_splits : ℤ
  random_state : Option ℤ
  shuffle : Bool
deriving DecidableEq, Repr

/-- An `MLPArgs` with its randomness source resolved to a concrete seed. -/
structure MLPResolved where
  hidden_layer_sizes : List ℤ
  batch_size : ℤ
  activation : String
  learning_rate_init : ℚ
  max_iter : ℤ
  random_state : ℤ
deriving DecidableEq, Repr

/-- A `KFoldArgs` with its randomness source resolved to a concrete seed. -/
structure KFoldResolved where
  n_splits : ℤ
  random_state : ℤ
  shuffle : Bool
deriving DecidableEq, Repr

/-- sklearn semantics: an estimator built with `random_state=None` draws
its seed from the ambient global generator state `g`; one built with an
explicit `random_state` uses exactly that. -/
def resolveMLP (g : ℤ) (m : MLPArgs) : MLPResolved :=
  { hidden_layer_sizes := m.hidden_layer_sizes
    batch_size := m.batch_size
    activation := m.activation
    learning_rate_init := m.learning_rate_init
    max_iter := m.max_iter
    random_state := m.random_state.getD g }

/-- Same resolution for the cross-validation splitter. -/
def resolveKFold (g : ℤ) (k : KFoldArgs) : KFoldResolved :=
  { n_splits := k.n_splits
    random_state := k.random_state.getD g
    shuffle := k.shuffle }

/-- The `MLPClassifier(...)` construction inside `mlp_from_cfg`:
`hidden_layer_sizes=[cfg["n_neurons"]] * cfg["n_layer"]`,
`batch_size=cfg['batch_size']`, `activation=cfg['activation']`,
`learning_rate_init=cfg['learning_rate_init']`,
`max_iter=int(np.ceil(budget))`, `random_state=seed`. -/
def mkMLP (cfg : Cfg) (seed : ℤ) (budget : ℚ) : MLPArgs :=
  { hidden_layer_sizes := List.replicate cfg.n_layer.toNat cfg.n_neurons
    batch_size := cfg.batch_size
    activation := cfg.activation
    learning_rate_init := cfg.learning_rate_init
    max_iter := pyInt (npCeil budget)
    random_state := some seed }

/-- The `StratifiedKFold(n_splits=5, random_state=seed, shuffle=True)`
construction inside `mlp_from_cfg`. -/
def mkKFold (seed : ℤ) : KFoldArgs :=
  { n_splits := 5, random_state := some seed, shuffle := true }

/-- `np.mean` of a list of exact scores. -/
def mean (xs : List ℚ) : ℚ := xs.sum / xs.length

/-- `mlp_from_cfg`, value semantics: `score` is the oracle standing for
`cross_val_score(mlp, digits.data, digits.target, cv=cv, error_score='raise')`
— the per-fold accuracies the fixed digits dataset yields for the given
resolved estimator and splitter — and `g` is the ambient global RNG state.
The function returns `1 - np.mean(score)`. -/
def mlp_from_cfg (score : MLPResolved → KFoldResolved → List ℚ)
    (g : ℤ) (cfg : Cfg) (seed : ℤ) (budget : ℚ) : ℚ :=
  let mlp := resolveMLP g (mkMLP cfg seed budget)
  let cv := resolveKFold g (mkKFold seed)
  1 - mean (score mlp cv)

/-! ### Effect semantics of `mlp_from_cfg`: warnings and exceptions -/

/-- Python warning categories relevant here: sklearn's
`ConvergenceWarning` and any other category, identified by name. -/
inductive WCat where
  | convergence
  | other (name : String)
deriving DecidableEq, Repr

/-- Python exceptions are abstracted as messages. -/
abbrev Err := String

/-- `mlp_from_cfg`, effect semantics.  `fitScore` stands for the
`cross_val_score(...)` call with `error_score='raise'`: it yields the list
of warning categories the fit emits together with either the per-fold
scores or a raised exception.  The body runs inside
`with warnings.catch_warnings(): warnings.filterwarnings('ignore',
category=ConvergenceWarning)`, so warnings of exactly that category are
dropped, every other warning passes through, and exceptions are not
touched: an `error` result propagates to the caller unchanged. -/
def mlp_from_cfg_eff
    (fitScore : MLPResolved → KFoldResolved → List WCat × Except Err (List ℚ))
    (g : ℤ) (cfg : Cfg) (seed : ℤ) (budget : ℚ) :
    List WCat × Except Err ℚ :=
  let mlp := resolveMLP g (mkMLP cfg seed budget)
  let cv := resolveKFold g (mkKFold seed)
  let out := fitScore mlp cv
  (out.1.filter (fun w => w ≠ WCat.convergence),
   out.2.map (fun s => 1 - mean s))

/-! ### The `__main__` driver, as a statement-level trace -/

/-- Where the `config=` argument of a `get_tae_runner().run(...)` call
comes from: `cs.get_default_configuration()` or the `incumbent` variable. -/
inductive CfgSource where
  | defaultConfig
  | incumbentVar
deriving DecidableEq, Repr

/-- One observable step of the `__main__` block.  Constructor calls,
mutations, reads and argument passings are distinguished so that ordering
and frame properties can be stated over the trace. -/
inductive Event where
  | constructSpace
  | constructHyperparameter (hp : Hyperparameter)
  | spaceMutate (method : String)
  | spacePassedToScenarioCfg
  | constructScenarioCfg (opts : List (String × Value))
  | scenarioCfgMutate (method : String)
  | scenarioCfgPassedToOptimizer
  | constructOptimizer (intensifier_kwargs : List (String × ℚ))
  | facadeAccess (member : String)
  | spaceRead (method : String)
  | solverRead (member : String)
  | taeRun (src : CfgSource) (inst : String) (budget : ℚ) (seed : ℤ)
deriving DecidableEq, Repr

/-- The `intensifier_kwargs` dictionary:
`{'initial_budget': 5, 'max_budget': max_iters, 'eta': 3}` with
`max_iters = 50`. -/
def intensifierKwargs : List (String × ℚ) :=
  [("initial_budget", 5), ("max_budget", 50), ("eta", 3)]

/-- The `__main__` block of the script, one event per observable step, in
source (and Python evaluation) order:
`cs = ConfigurationSpace()`; the five hyperparameter constructions;
`cs.add_hyperparameters([...])`; `scenario = Scenario({..., "cs": cs, ...})`
(the dict containing `cs` is built before the constructor runs);
`smac = HB4AC(scenario=scenario, rng=..., tae_runner=mlp_from_cfg,
intensifier_kwargs=...)`; the default-configuration evaluation
`smac.get_tae_runner().run(config=cs.get_default_configuration(),
instance='1', budget=max_iters, seed=0)`; `smac.optimize()` inside `try`;
`smac.solver.incumbent` inside `finally`; and the incumbent evaluation
`smac.get_tae_runner().run(config=incumbent, instance='1',
budget=max_iters, seed=0)`. -/
def driverTrace : List Event :=
  [Event.constructSpace,
   Event.constructHyperparameter n_layer,
   Event.constructHyperparameter n_neurons,
   Event.constructHyperparameter activation,
   Event.constructHyperparameter batch_size,
   Event.constructHyperparameter learning_rate_init,
   Event.spaceMutate "add_hyperparameters",
   Event.spacePassedToScenarioCfg,
   Event.constructScenarioCfg scenarioOptions,
   Event.scenarioCfgPassedToOptimizer,
   Event.constructOptimizer intensifierKwargs,
   Event.facadeAccess "get_tae_runner",
   Event.spaceRead "get_default_configuration",
   Event.taeRun CfgSource.defaultConfig "1" 50 0,
   Event.facadeAccess "optimize",
   Event.facadeAccess "solver",
   Event.solverRead "incumbent",
   Event.facadeAccess "get_tae_runner",
   Event.taeRun CfgSource.incumbentVar "1" 50 0]

/-- The six coarse phases the spec describes for the driver. -/
inductive Phase where
  | buildSpace
  | buildScenarioCfg
  | constructOpt
  | evalDefault
  | runOptim
  | evalIncumbent
deriving DecidableEq, Repr

/-- Projection of an event onto the phase it realises, if any. -/
def phaseOf : Event → Option Phase
  | .constructSpace => some .buildSpace
  | .constructScenarioCfg _ => some .buildScenarioCfg
  | .constructOptimizer _ => some .constructOpt
  | .taeRun .defaultConfig _ _ _ => some .evalDefault
  | .facadeAccess m => if m = "optimize" then some .runOptim else none
  | .taeRun .incumbentVar _ _ _ => some .evalIncumbent
  | _ => none

/-- The members of the optimizer facade object `smac` a trace accesses,
in access order, duplicates kept. -/
def facadeMembersUsed (t : List Event) : List String :=
  t.filterMap fun e =>
    match e with
    | .facadeAccess m => some m
    | _ => none

/-- Does the event mutate the configuration space `cs`? -/
def isSpaceMutate : Event → Bool
  | .spaceMutate _ => true
  | _ => false

/-- Does the event mutate the scenario object? -/
def isScenarioCfgMutate : Event → Bool
  | .scenarioCfgMutate _ => true
  | _ => false

/-- Does the event touch the configuration space `cs` at all? -/
def touchesSpace : Event → Bool
  | .constructSpace => true
  | .spaceMutate _ => true
  | .spacePassedToScenarioCfg => true
  | .spaceRead _ => true
  | _ => false

/-- The suffix of the trace strictly after the first event satisfying
`p` (empty when none does). -/
def afterFirst (p : Event → Bool) (t : List Event) : List Event :=
  (t.dropWhile (fun e => !p e)).tail

/-! ### The try/finally block around `smac.optimize()` -/

/-- The local variables of `__main__` the try/finally block touches. -/
structure MainLocals (Config : Type) where
  incumbent : Option Config
deriving DecidableEq, Repr

/-- `try: incumbent = smac.optimize()` / `finally: incumbent =
smac.solver.incumbent`.  `optResult` is what `smac.optimize()` does
(returns a configuration or raises), `solverInc` is the value of
`smac.solver.incumbent`.  Python semantics: the `finally` suite runs
whether or not the `try` suite raised, and a pending exception then
propagates.  Returns the locals after the block and the propagating
exception, if any. -/
def tryFinallyIncumbent {Config : Type}
    (optResult : Except Err Config) (solverInc : Config)
    (s : MainLocals Config) : MainLocals Config × Option Err :=
  let afterTry :=
    match optResult with
    | .ok c => ({ s with incumbent := some c }, (none : Option Err))
    | .error e => (s, some e)
  ({ afterTry.1 with incumbent := some solverInc }, afterTry.2)

/-- The tail of `__main__` from the `try` statement on: run the
try/finally block, then — only if no exception is propagating — evaluate
the `incumbent` variable with the final tae-runner `run` call.  Returns
the final locals, the propagating exception if any, and the configuration
the final evaluation received (`none` when it was never reached). -/
def mainTail {Config : Type}
    (optResult : Except Err Config) (solverInc : Config)
    (s : MainLocals Config) :
    MainLocals Config × Option Err × Option Config :=
  let out := tryFinallyIncumbent optResult solverInc s
  match out.2 with
  | some e => (out.1, some e, none)
  | none => (out.1, none, out.1.incumbent)

/-! ## Theorems -/

/-- The script's default configuration: the `default_value` of each
hyperparameter in the space. -/
def defaultCfg : Cfg :=
  { n_neurons := 10, n_layer := 1, batch_size := 200,
    activation := "tanh", learning_rate_init := 1/1000 }

/-- A concrete scoring oracle used only to instantiate theorems. -/
def scoreHi : MLPResolved → KFoldResolved → List ℚ :=
  fun _ _ => [9/10, 9/10, 9/10, 9/10, 9/10]

/-- A second concrete scoring oracle with a lower mean accuracy. -/
def scoreLo : MLPResolved → KFoldResolved → List ℚ :=
  fun _ _ => [1/2, 1/2, 1/2, 1/2, 1/2]

/-- C1: for every configuration, seed and budget (and every ambient RNG
state and scoring oracle), `mlp_from_cfg` returns one minus the mean of
the per-fold accuracies returned by cross-validation with the splitter it
built, that splitter is 5-fold, and a strictly higher mean accuracy
yields a strictly lower returned cost. -/
theorem mlp_from_cfg_one_minus_mean_cv
    (score : MLPResolved → KFoldResolved → List ℚ)
    (g : ℤ) (cfg : Cfg) (seed : ℤ) (budget : ℚ) :
    mlp_from_cfg score g cfg seed budget
      = 1 - mean (score (resolveMLP g (mkMLP cfg seed budget))
                        (resolveKFold g (mkKFold seed)))
    ∧ (mkKFold seed).n_splits = 5
    ∧ ∀ score₂ : MLPResolved → KFoldResolved → List ℚ,
        mean (score₂ (resolveMLP g (mkMLP cfg seed budget))
                     (resolveKFold g (mkKFold seed)))
          < mean (score (resolveMLP g (mkMLP cfg seed budget))
                        (resolveKFold g (mkKFold seed))) →
        mlp_from_cfg score g cfg seed budget
          < mlp_from_cfg score₂ g cfg seed budget := by
  refine ⟨rfl, rfl, ?_⟩
  intro score₂ h
  simp only [mlp_from_cfg]
  linarith

/-- Witness for C1 at concrete inputs: the oracle with mean accuracy 9/10
yields a strictly lower cost than the one with mean accuracy 1/2. -/
theorem mlp_from_cfg_one_minus_mean_cv_witness :
    mlp_from_cfg scoreHi 0 defaultCfg 0 50
      < mlp_from_cfg scoreLo 0 defaultCfg 0 50 := by
  exact (mlp_from_cfg_one_minus_mean_cv scoreHi 0 defaultCfg 0 50).2.2 scoreLo
    (by norm_num [scoreHi, scoreLo, mean])

/-- C8: for every positive budget the constructed classifier's `max_iter`
is the ceiling of the budget, and a budget in (0, 1] gives `max_iter = 1`. -/
theorem mlp_max_iter_ceil (cfg : Cfg) (seed : ℤ) (budget : ℚ)
    (hb : 0 < budget) :
    (mkMLP cfg seed budget).max_iter = ⌈budget⌉
    ∧ (budget ≤ 1 → (mkMLP cfg seed budget).max_iter = 1) := by
  have hpos : 0 < ⌈budget⌉ := Int.ceil_pos.mpr hb
  have h1 : (mkMLP cfg seed budget).max_iter = ⌈budget⌉ := by
    simp only [mkMLP, pyInt, npCeil]
    rw [if_pos (by exact_mod_cast hpos.le), Int.floor_intCast]
  refine ⟨h1, fun hle => ?_⟩
  have hub : ⌈budget⌉ ≤ 1 := Int.ceil_le.mpr (by exact_mod_cast hle)
  rw [h1]
  omega

/-- Witness for C8 at budget 1/2 ∈ (0, 1]: `max_iter = 1`. -/
theorem mlp_max_iter_ceil_witness :
    (0:ℚ) < 1/2 ∧ (mkMLP defaultCfg 0 (1/2)).max_iter = 1 :=
  ⟨by norm_num, (mlp_max_iter_ceil defaultCfg 0 (1/2) (by norm_num)).2 (by norm_num)⟩

/-- C10: for a fixed configuration, seed and budget the result of
`mlp_from_cfg` does not depend on the ambient global RNG state — the
classifier's and the splitter's randomness are both resolved from the
explicit `seed` argument — so two calls with the same arguments return
equal values. -/
theorem mlp_from_cfg_deterministic
    (score : MLPResolved → KFoldResolved → List ℚ)
    (cfg : Cfg) (seed : ℤ) (budget : ℚ) (g₁ g₂ : ℤ) :
    mlp_from_cfg score g₁ cfg seed budget = mlp_from_cfg score g₂ cfg seed budget
    ∧ (resolveMLP g₁ (mkMLP cfg seed budget)).random_state = seed
    ∧ (resolveKFold g₁ (mkKFold seed)).random_state = seed :=
  ⟨rfl, rfl, rfl⟩

/-- A concrete effectful oracle used only to instantiate theorems: emits a
convergence warning and another warning, then raises. -/
def fitScoreErr : MLPResolved → KFoldResolved → List WCat × Except Err (List ℚ) :=
  fun _ _ => ([WCat.convergence, WCat.other "future"], Except.error "fit failed")

/-- C2: the warning scope in `mlp_from_cfg` silences exactly the
convergence category — no warning of that category escapes, every warning
of any other category does escape — and it catches no exceptions: an
error raised by the fit/cross-validation oracle propagates unchanged. -/
theorem mlp_from_cfg_warning_scope
    (fitScore : MLPResolved → KFoldResolved → List WCat × Except Err (List ℚ))
    (g : ℤ) (cfg : Cfg) (seed : ℤ) (budget : ℚ) :
    (∀ w ∈ (mlp_from_cfg_eff fitScore g cfg seed budget).1,
        w ≠ WCat.convergence)
    ∧ (∀ w ∈ (fitScore (resolveMLP g (mkMLP cfg seed budget))
                        (resolveKFold g (mkKFold seed))).1,
        w ≠ WCat.convergence →
        w ∈ (mlp_from_cfg_eff fitScore g cfg seed budget).1)
    ∧ (∀ e : Err,
        (fitScore (resolveMLP g (mkMLP cfg seed budget))
                  (resolveKFold g (mkKFold seed))).2 = Except.error e →
        (mlp_from_cfg_eff fitScore g cfg seed budget).2 = Except.error e) := by
  refine ⟨?_, ?_, ?_⟩
  · intro w hw
    simp only [mlp_from_cfg_eff, List.mem_filter, decide_eq_true_eq] at hw
    exact hw.2
  · intro w hw hne
    simp only [mlp_from_cfg_eff, List.mem_filter, decide_eq_true_eq]
    exact ⟨hw, hne⟩
  · intro e he
    simp only [mlp_from_cfg_eff, he]
    rfl

/-- Witness for C2 at a concrete oracle that warns (convergence and one
other category) and raises: the other warning escapes and the error
propagates. -/
theorem mlp_from_cfg_warning_scope_witness :
    WCat.other "future" ∈ (mlp_from_cfg_eff fitScoreErr 0 defaultCfg 0 50).1
    ∧ (mlp_from_cfg_eff fitScoreErr 0 defaultCfg 0 50).2
        = Except.error "fit failed" := by
  have h := mlp_from_cfg_warning_scope fitScoreErr 0 defaultCfg 0 50
  exact ⟨h.2.1 (WCat.other "future") (by simp [fitScoreErr]) (by simp),
         h.2.2 "fit failed" rfl⟩

/-- C9: the `finally` clause always rebinds `incumbent` to
`smac.solver.incumbent`; when `smac.optimize()` returns normally its
return value is discarded and the final evaluation receives the solver's
incumbent, and when it raises, `incumbent` is still rebound but the
exception propagates and the final evaluation is never reached. -/
theorem try_finally_incumbent_rebound {Config : Type}
    (optResult : Except Err Config) (solverInc : Config)
    (s : MainLocals Config) :
    (mainTail optResult solverInc s).1.incumbent = some solverInc
    ∧ (∀ c, optResult = Except.ok c →
        (mainTail optResult solverInc s).2.1 = none
        ∧ (mainTail optResult solverInc s).2.2 = some solverInc)
    ∧ (∀ e, optResult = Except.error e →
        (mainTail optResult solverInc s).2.1 = some e
        ∧ (mainTail optResult solverInc s).2.2 = none) := by
  cases optResult with
  | ok c =>
      exact ⟨rfl, fun _ _ => ⟨rfl, rfl⟩, fun e he => by cases he⟩
  | error e =>
      refine ⟨rfl, ?_, ?_⟩
      · intro c hc
        cases hc
      · intro e' he
        injection he with h
        subst h
        exact ⟨rfl, rfl⟩

/-- Witness for C9 at concrete inputs: a successful `optimize` returning
configuration 1 still leads to configuration 2 (the solver's incumbent)
being evaluated, and a raising `optimize` propagates its exception. -/
theorem try_finally_incumbent_rebound_witness :
    (mainTail (Except.ok (1:ℕ)) 2 ⟨none⟩).2.2 = some 2
    ∧ (mainTail (Except.error "boom" : Except Err ℕ) 2 ⟨none⟩).2.1
        = some "boom" :=
  ⟨((try_finally_incumbent_rebound (Except.ok 1) 2 ⟨none⟩).2.1 1 rfl).2,
   ((try_finally_incumbent_rebound (Except.error "boom") 2 ⟨none⟩).2.2
      "boom" rfl).1⟩

/-- C3: projected onto phases, the driver trace is exactly: build the
parameter space, construct the scenario configuration, construct the
optimizer (and that construction carries the Hyperband intensifier
kwargs `initial_budget=5, max_budget=50, eta=3`), evaluate the default
configuration, run the optimization, evaluate the incumbent. -/
theorem driver_phase_order :
    driverTrace.filterMap phaseOf
      = [Phase.buildSpace, Phase.buildScenarioCfg, Phase.constructOpt,
         Phase.evalDefault, Phase.runOptim, Phase.evalIncumbent]
    ∧ Event.constructOptimizer
        [("initial_budget", 5), ("max_budget", 50), ("eta", 3)]
        ∈ driverTrace := by
  exact ⟨by decide, by decide⟩

/-- Counterexample to C4 as stated: the driver's accesses to the facade
object include `solver` (to read the incumbent) and never include `run`
— `run` is a method of the object `get_tae_runner` returns, not of the
facade — so the set of facade members used is not the claimed trio of
run, optimize and get_tae_runner. -/
theorem facade_surface_not_as_claimed :
    "solver" ∈ facadeMembersUsed driverTrace
    ∧ "run" ∉ facadeMembersUsed driverTrace := by
  exact ⟨by decide, by decide⟩

/-- C4 (amended): the driver accesses exactly three distinct members of
the optimizer facade — `get_tae_runner` (twice), `optimize`, and
`solver`, through which the incumbent is read; `run` is invoked on the
tae runner returned by `get_tae_runner`, not on the facade. -/
theorem facade_surface_three_members :
    facadeMembersUsed driverTrace
      = ["get_tae_runner", "optimize", "solver", "get_tae_runner"]
    ∧ (facadeMembersUsed driverTrace).eraseDups
      = ["get_tae_runner", "optimize", "solver"] := by
  exact ⟨by decide, by decide⟩

/-- Counterexample to C5 as stated: the scenario dictionary is not a
mapping of just the four scalar options — it also binds `cs` to the
parameter-space object, which is not a scalar (and binds `run_obj` and
`limit_resources` besides). -/
theorem scenario_options_beyond_four_scalars :
    ("cs", Value.configSpace) ∈ scenarioOptions
    ∧ Value.isScalar Value.configSpace = false
    ∧ "cs" ∉ ["wallclock-limit", "cutoff", "memory_limit", "deterministic"]
    ∧ ¬ (∀ kv ∈ scenarioOptions, Value.isScalar kv.2 = true) := by
  exact ⟨by decide, by decide, by decide, by decide⟩

/-- C5 (amended): the scenario configuration binds the four named options
— wall-clock budget, per-run cutoff, memory ceiling, determinism flag —
each to a scalar value, and additionally binds the objective kind and the
resource-limiting flag (scalars) and the parameter space object, the one
non-scalar entry. -/
theorem scenario_options_amended :
    scenarioOptions.lookup "wallclock-limit" = some (Value.int 100)
    ∧ scenarioOptions.lookup "cutoff" = some (Value.int 30)
    ∧ scenarioOptions.lookup "memory_limit" = some (Value.int 3072)
    ∧ scenarioOptions.lookup "deterministic" = some (Value.str "true")
    ∧ (∀ kv ∈ scenarioOptions, kv.1 ≠ "cs" → Value.isScalar kv.2 = true)
    ∧ scenarioOptions.lookup "run_obj" = some (Value.str "quality")
    ∧ scenarioOptions.lookup "limit_resources" = some (Value.bool true)
    ∧ scenarioOptions.lookup "cs" = some Value.configSpace := by
  refine ⟨by decide, by decide, by decide, by decide, by decide,
          by decide, by decide, by decide⟩

/-- Boundedness of a declared domain: an integer range with ordered
bounds, a real range with strictly ordered bounds, or a non-empty choice
set. -/
def domainWellFormed : Domain → Bool
  | .uniformInt lower upper _ => decide (lower ≤ upper)
  | .uniformFloat lower upper _ => decide (lower < upper)
  | .categorical choices => !choices.isEmpty

/-- C6: every hyperparameter added to the configuration space has a
domain that is an integer range, a bounded real range (with optional log
scaling), or a categorical choice set — well-formed in each case — and
every one of them carries an explicit default value. -/
theorem hyperparameters_domains_and_defaults :
    addedHyperparameters.all
      (fun hp => hp.default_value.isSome && domainWellFormed hp.domain)
      = true := by
  simp only [addedHyperparameters, n_layer, n_neurons, activation, batch_size,
    learning_rate_init, domainWellFormed, List.all_cons, List.all_nil,
    Option.isSome_some, Bool.true_and, Bool.and_true, List.isEmpty_cons,
    Bool.not_false, decide_eq_true_eq]
  norm_num

/-- C7: after the configuration space is passed to the scenario
constructor, no later event of the driver trace mutates it — the only
later access is the read `get_default_configuration` — and after the
scenario is passed to the optimizer constructor, no later event mutates
it. -/
theorem no_mutation_after_passing :
    (afterFirst (fun e => decide (e = Event.spacePassedToScenarioCfg))
        driverTrace).all (fun e => !isSpaceMutate e) = true
    ∧ (afterFirst (fun e => decide (e = Event.spacePassedToScenarioCfg))
        driverTrace).filter touchesSpace
      = [Event.spaceRead "get_default_configuration"]
    ∧ (afterFirst (fun e => decide (e = Event.scenarioCfgPassedToOptimizer))
        driverTrace).all (fun e => !isScenarioCfgMutate e) = true := by
  exact ⟨by decide, by decide, by decide⟩

end HyperbandMLP
